import Mathlib

set_option maxRecDepth 4096

/-
Verification of the bundle-image composition pipeline of the
images-creator repository.

The development shallowly embeds the pipeline's pure logic:
  * the grid-layout planner `calculateGridLayout` (two observed variants:
    the Cloudinary grid-composition service with 1024-pixel cells and the
    example image service with 400-pixel cells);
  * the pre-external validation/configuration phase of `processImages`;
  * the per-product loop of the "fetch bundle images" route action;
  * the per-product orchestration loop `generateAndUpdateBundles` of the
    admin-action extension.
External effects (GraphQL transport, HTTP fetch, URL parsing, the clock)
are passed in as explicit oracle arguments, so every definition is
executable and every branch of the source is represented.
-/

namespace ImagesCreator

/-- Grid geometry returned by `calculateGridLayout` in both image-service
variants of the repository. -/
structure GridLayout where
  rows : Int
  cols : Int
  cellWidth : Int
  cellHeight : Int
  canvasWidth : Int
  canvasHeight : Int
  positions : List (Int × Int)
deriving Repr, DecidableEq

/-- Integer ceiling square root: the least c with n ≤ c * c, the value of
Math.ceil (Math.sqrt n) for a natural n (JavaScript computes this in
floating point; the values agree on the exact range relevant here). -/
def ceilSqrt (n : Nat) : Nat :=
  (((List.range (n + 1)).find? fun c => n ≤ c * c).getD n)

/-- The position-building loop, textually identical in both variants: for
each index i in [0, imageCount), column = i mod cols, row = floor (i / cols),
position = (column * cellWidth, row * cellHeight). -/
def gridPositions (imageCount : Int) (cols cellWidth cellHeight : Int) : List (Int × Int) :=
  (List.range imageCount.toNat).map fun (i : Nat) =>
    (((i : Int) % cols) * cellWidth, ((i : Int) / cols) * cellHeight)

namespace GridComposition

/-- Embeds calculateGridLayout of the Cloudinary grid-composition service
(the variant with 1024-pixel cells, which maps imageCount = 3 to a 2 by 2
grid). -/
def calculateGridLayout (imageCount : Int) : GridLayout :=
  let cr : Int × Int :=
    if imageCount = 1 then (1, 1)
    else if imageCount = 2 then (2, 1)
    else if imageCount = 3 then (2, 2)
    else if imageCount = 4 then (2, 2)
    else if imageCount ≤ 6 then (3, 2)
    else if imageCount ≤ 9 then (3, 3)
    else
      let c := ceilSqrt imageCount.toNat
      ((c : Int), (((imageCount.toNat + c - 1) / c : Nat) : Int))
  let cellWidth : Int := 1024
  let cellHeight : Int := 1024
  { rows := cr.2
    cols := cr.1
    cellWidth := cellWidth
    cellHeight := cellHeight
    canvasWidth := cr.1 * cellWidth
    canvasHeight := cr.2 * cellHeight
    positions := gridPositions imageCount cr.1 cellWidth cellHeight }

end GridComposition

namespace ExampleService

/-- Embeds calculateGridLayout of the example image-processing service (the
variant with 400-pixel cells, which maps imageCount = 3 to a 3 by 1 grid). -/
def calculateGridLayout (imageCount : Int) : GridLayout :=
  let cr : Int × Int :=
    if imageCount = 1 then (1, 1)
    else if imageCount = 2 then (2, 1)
    else if imageCount = 3 then (3, 1)
    else if imageCount = 4 then (2, 2)
    else if imageCount ≤ 6 then (3, 2)
    else if imageCount ≤ 9 then (3, 3)
    else
      let c := ceilSqrt imageCount.toNat
      ((c : Int), (((imageCount.toNat + c - 1) / c : Nat) : Int))
  let cellWidth : Int := 400
  let cellHeight : Int := 400
  { rows := cr.2
    cols := cr.1
    cellWidth := cellWidth
    cellHeight := cellHeight
    canvasWidth := cr.1 * cellWidth
    canvasHeight := cr.2 * cellHeight
    positions := gridPositions imageCount cr.1 cellWidth cellHeight }

end ExampleService

/-- Environment variables read by the image-processing services, each a
string or absent, exactly as process.env exposes them. -/
structure Env where
  imageApiMode : Option String
  cloudinaryCloudName : Option String
  cloudinaryApiKey : Option String
  cloudinaryApiSecret : Option String
  imgbbApiKey : Option String
deriving Repr, DecidableEq

/-- JavaScript falsiness of an environment variable or optional string
field: absent or the empty string. -/
def jsFalsy (s : Option String) : Bool :=
  match s with
  | none => true
  | some v => v = ""

namespace GridComposition

/-- The validation and configuration phase of processImages in the
Cloudinary grid-composition service, up to its first external call: the
empty-input check, the per-URL format check (JavaScript's new URL is the
oracle isValidUrl) and the credential check; on success it proceeds to
upload exactly the given URLs. Error values carry the thrown message; in
the spec's taxonomy the first two are the ValidationError class and the
credential message the ConfigurationError class. -/
def processImages (isValidUrl : String → Bool) (env : Env)
    (imageUrls : List String) : Except String (List String) :=
  if imageUrls.isEmpty then
    .error "No image URLs provided"
  else
    match imageUrls.find? (fun url => !isValidUrl url) with
    | some badUrl => .error ("Invalid URL format: " ++ badUrl)
    | none =>
      if jsFalsy env.cloudinaryCloudName || jsFalsy env.cloudinaryApiKey ||
          jsFalsy env.cloudinaryApiSecret then
        .error "Cloudinary configuration missing. Required: CLOUDINARY_CLOUD_NAME, CLOUDINARY_API_KEY, CLOUDINARY_API_SECRET"
      else
        .ok imageUrls

end GridComposition

namespace ExampleService

/-- Where the example service's processImages stands when it first reaches
(or, in demo mode, has produced its result without) an external call. -/
inductive ProcPhase where
  | demoResult (url : String)
  | cloudinaryUpload (urls : List String)
  | imgbbUpload (firstUrl : String)
deriving Repr, DecidableEq

/-- The validation and configuration phase of processImages in the example
image-processing service, up to its first external call: input checks, the
IMAGE_API_MODE dispatch (absent or empty defaults to demo) and credential
checks. JavaScript's new URL is the oracle isValidUrl and Date.now the
argument now. Error values carry the thrown message; in the spec's
taxonomy the two input checks are the ValidationError class and the
credential and unknown-mode messages the ConfigurationError class. -/
def processImages (isValidUrl : String → Bool) (env : Env) (now : Nat)
    (imageUrls : List String) : Except String ProcPhase :=
  if imageUrls.isEmpty then
    .error "No image URLs provided"
  else
    match imageUrls.find? (fun url => !isValidUrl url) with
    | some badUrl => .error ("Invalid URL format: " ++ badUrl)
    | none =>
      let apiMode :=
        match env.imageApiMode with
        | some v => if v = "" then "demo" else v
        | none => "demo"
      if apiMode = "demo" then
        .ok (.demoResult ("https://picsum.photos/seed/" ++ toString now ++ "/800/600"))
      else if apiMode = "cloudinary" then
        if jsFalsy env.cloudinaryCloudName || jsFalsy env.cloudinaryApiKey ||
            jsFalsy env.cloudinaryApiSecret then
          .error "Cloudinary configuration missing. Required: CLOUDINARY_CLOUD_NAME, CLOUDINARY_API_KEY, CLOUDINARY_API_SECRET"
        else
          .ok (.cloudinaryUpload imageUrls)
      else if apiMode = "imgbb" then
        if jsFalsy env.imgbbApiKey then
          .error "IMGBB_API_KEY environment variable is required"
        else
          .ok (.imgbbUpload (imageUrls.headD ""))
      else
        .error ("Unknown IMAGE_API_MODE: " ++ apiMode ++ ". Valid options: demo, cloudinary, imgbb")

end ExampleService

namespace FetchBundleImages

/-- Image payload inside featuredMedia of a bundle component node. -/
structure ImageInfo where
  url : String
  altText : Option String
deriving Repr, DecidableEq

/-- One bundle-component product node returned by the GraphQL query: id,
title and a doubly optional featured image (featuredMedia may be absent,
and a present featuredMedia may lack an image). -/
structure BundleComponent where
  id : String
  title : String
  featuredMedia : Option (Option ImageInfo)
deriving Repr, DecidableEq

/-- The parent product node returned by the GraphQL query, with its
bundleComponents edges flattened to the component product nodes. -/
structure ProductNode where
  id : String
  title : String
  components : List BundleComponent
deriving Repr, DecidableEq

/-- Outcome of one per-product GraphQL query as the route inspects it:
a data.errors array, a null product, or a product node. -/
inductive QueryResult where
  | errors (msgs : List String)
  | notFound
  | found (p : ProductNode)
deriving Repr, DecidableEq

/-- One ComponentImage record of the route's response. -/
structure ComponentImage where
  productId : String
  productTitle : String
  componentProductId : String
  componentProductTitle : String
  imageUrl : String
  altText : Option String
deriving Repr, DecidableEq

/-- One per-product group of the route's response (ProductImages in the
source). -/
structure ProductImages where
  productId : String
  productTitle : String
  componentImages : List ComponentImage
  imageUrls : List String
deriving Repr, DecidableEq

/-- The metadata block of the route's success response. -/
structure Metadata where
  requestedProducts : Nat
  productsFound : Nat
  componentsFound : Nat
  imagesFound : Nat
deriving Repr, DecidableEq

/-- The success payload of the route's response. -/
structure FetchBundleImagesSuccess where
  products : List ProductImages
  metadata : Metadata
deriving Repr, DecidableEq

/-- Tests a product id against the route's GID pattern: the 22-character
literal prefix gid://shopify/Product/ followed by one or more ASCII
digits, checked over the string's character list. -/
def validGid (s : String) : Bool :=
  (s.data.take 22 == "gid://shopify/Product/".data) &&
    (let rest := s.data.drop 22
     !rest.isEmpty && rest.all Char.isDigit)

/-- Collects the ComponentImage records of one found product, skipping
every component whose featuredMedia or featuredMedia.image is missing. -/
def collectImages (p : ProductNode) : List ComponentImage :=
  p.components.filterMap fun comp =>
    match comp.featuredMedia with
    | some (some img) =>
        some { productId := p.id
               productTitle := p.title
               componentProductId := comp.id
               componentProductTitle := comp.title
               imageUrl := img.url
               altText := img.altText }
    | _ => none

/-- Whether a component node carries a featured image, the condition under
which the loop keeps it (the negation of the skip condition featuredMedia
missing or featuredMedia.image missing). -/
def hasFeaturedImage (comp : BundleComponent) : Bool :=
  match comp.featuredMedia with
  | some (some _) => true
  | _ => false

/-- Accumulated state of the route's per-product loop. -/
structure LoopState where
  products : List ProductImages
  productsFound : Nat
  componentsFound : Nat
  imagesFound : Nat
deriving Repr, DecidableEq

/-- The per-product loop of the action: one query per id via the backend
oracle; a query-error or null-product response skips the id entirely; a
found product counts into productsFound and componentsFound and
contributes a group exactly when it yields at least one image. -/
def resolveLoop (backend : String → QueryResult) :
    List String → LoopState
  | [] => { products := [], productsFound := 0, componentsFound := 0, imagesFound := 0 }
  | pid :: rest =>
    let acc := resolveLoop backend rest
    match backend pid with
    | .errors _ => acc
    | .notFound => acc
    | .found p =>
      let productImages := collectImages p
      if productImages.length > 0 then
        let imageUrls := productImages.map (·.imageUrl)
        { products :=
            { productId := p.id
              productTitle := p.title
              componentImages := productImages
              imageUrls := imageUrls } :: acc.products
          productsFound := acc.productsFound + 1
          componentsFound := acc.componentsFound + p.components.length
          imagesFound := acc.imagesFound + imageUrls.length }
      else
        { products := acc.products
          productsFound := acc.productsFound + 1
          componentsFound := acc.componentsFound + p.components.length
          imagesFound := acc.imagesFound }

/-- The POST action of the fetch-bundle-images route (the grouped-response
variant), after JSON body parsing: the empty-list check, the GID format
check with early return at the first malformed id, then the per-product
query loop. Error values carry the message of the 400 response body. -/
def action (backend : String → QueryResult) (productIds : List String) :
    Except String FetchBundleImagesSuccess :=
  if productIds.isEmpty then
    .error "productIds array is empty"
  else
    match productIds.find? (fun pid => !validGid pid) with
    | some badId => .error ("Invalid product ID format: " ++ badId)
    | none =>
      let st := resolveLoop backend productIds
      .ok { products := st.products
            metadata :=
              { requestedProducts := productIds.length
                productsFound := st.productsFound
                componentsFound := st.componentsFound
                imagesFound := st.imagesFound } }

end FetchBundleImages

namespace Extension

/-- One product entry of the extension's fetched products state, as
consumed by generateAndUpdateBundles. -/
structure ProductGroup where
  productId : String
  productTitle : String
  imageUrls : List String
deriving Repr, DecidableEq

/-- Result of one client-side fetch as the extension's code inspects it:
an ok response with its parsed JSON payload, a non-ok response with its
HTTP status, or a thrown exception with its message (network failure or a
body that fails to parse). -/
inductive FetchResult (α : Type) where
  | ok (payload : α)
  | httpError (status : Nat)
  | thrown (msg : String)
deriving Repr, DecidableEq

/-- Parsed body of the image-process response, as far as the extension
reads it. -/
structure ProcessData where
  combinedImageUrl : Option String
deriving Repr, DecidableEq

/-- Parsed body of the update-product-image response, as far as the
extension reads it. -/
structure UpdateData where
  success : Bool
  mediaCount : Option Nat
  error : Option String
deriving Repr, DecidableEq

/-- One entry pushed onto the extension's results array. Every field is
optional because the zero-products sentinel entry carries only error. -/
structure BatchOutcome where
  productId : Option String
  productTitle : Option String
  success : Option Bool
  combinedImageUrl : Option String
  mediaCount : Option Nat
  error : Option String
deriving Repr, DecidableEq

/-- JavaScript s || d for an optional string: d when s is absent or
empty. -/
def jsOrString (s : Option String) (d : String) : String :=
  match s with
  | some v => if v = "" then d else v
  | none => d

/-- The failure entry shape the extension pushes when no composite URL is
available: success false, an error message and no combinedImageUrl. -/
def failureOutcome (product : ProductGroup) (msg : String) : BatchOutcome :=
  { productId := some product.productId
    productTitle := some product.productTitle
    success := some false
    combinedImageUrl := none
    mediaCount := none
    error := some msg }

/-- One iteration of the extension's per-product loop: the composite fetch
(on non-ok status, falsy composite URL or a thrown exception, a failure
entry without combinedImageUrl), then the update fetch (on non-ok status
or an unsuccessful body, a failure entry that retains combinedImageUrl; a
thrown exception lands in the per-product catch, which records the error
without combinedImageUrl). -/
def processProduct (compositeCall : ProductGroup → FetchResult ProcessData)
    (updateCall : ProductGroup → String → FetchResult UpdateData)
    (product : ProductGroup) : BatchOutcome :=
  match compositeCall product with
  | .thrown msg => failureOutcome product msg
  | .httpError status =>
      failureOutcome product ("Failed to generate composite: " ++ toString status)
  | .ok processData =>
    match processData.combinedImageUrl with
    | none => failureOutcome product "No composite image URL returned"
    | some combinedImageUrl =>
      if combinedImageUrl = "" then
        failureOutcome product "No composite image URL returned"
      else
        match updateCall product combinedImageUrl with
        | .thrown msg => failureOutcome product msg
        | .httpError status =>
            { productId := some product.productId
              productTitle := some product.productTitle
              success := some false
              combinedImageUrl := some combinedImageUrl
              mediaCount := none
              error := some ("Failed to update product: " ++ toString status) }
        | .ok updateData =>
          if updateData.success then
            { productId := some product.productId
              productTitle := some product.productTitle
              success := some true
              combinedImageUrl := some combinedImageUrl
              mediaCount := updateData.mediaCount
              error := none }
          else
            { productId := some product.productId
              productTitle := some product.productTitle
              success := some false
              combinedImageUrl := some combinedImageUrl
              mediaCount := none
              error := some (jsOrString updateData.error "Update failed") }

/-- The extension's generateAndUpdateBundles over its fetched products,
with the two backend fetches as oracles: with no products it records a
single sentinel entry carrying only an error message; otherwise it
processes the products strictly in order, one results entry each. -/
def generateAndUpdateBundles
    (compositeCall : ProductGroup → FetchResult ProcessData)
    (updateCall : ProductGroup → String → FetchResult UpdateData)
    (products : List ProductGroup) : List BatchOutcome :=
  if products.isEmpty then
    [{ productId := none
       productTitle := none
       success := none
       combinedImageUrl := none
       mediaCount := none
       error := some "No products available to process" }]
  else
    products.map (processProduct compositeCall updateCall)

end Extension

/-- Concrete fixture: a first product group whose composite and update
both succeed. -/
def c2GroupA : Extension.ProductGroup :=
  { productId := "gid://shopify/Product/1"
    productTitle := "Alpha Bundle"
    imageUrls := ["https://cdn/a1.png", "https://cdn/a2.png"] }

/-- Concrete fixture: a second product group whose composite fetch
fails. -/
def c2GroupB : Extension.ProductGroup :=
  { productId := "gid://shopify/Product/2"
    productTitle := "Beta Bundle"
    imageUrls := ["https://cdn/b1.png", "https://cdn/b2.png"] }

/-- Concrete fixture: a composite oracle that succeeds for the first
product and returns HTTP 500 for every other product. -/
def c2Composite (g : Extension.ProductGroup) :
    Extension.FetchResult Extension.ProcessData :=
  if g.productId = "gid://shopify/Product/1" then
    .ok { combinedImageUrl := some "https://cdn/combined-a.png" }
  else
    .httpError 500

/-- Concrete fixture: an update oracle that always succeeds with media
count 3. -/
def c2Update (_ : Extension.ProductGroup) (_ : String) :
    Extension.FetchResult Extension.UpdateData :=
  .ok { success := true
        mediaCount := some 3
        error := none }

/-- Concrete fixture: a product group for the update-failure scenario. -/
def c3Group : Extension.ProductGroup :=
  { productId := "gid://shopify/Product/7"
    productTitle := "Bundle Seven"
    imageUrls := ["https://img/1.png", "https://img/2.png"] }

/-- Concrete fixture: a composite oracle that always succeeds with one
combined URL. -/
def c3Composite (_ : Extension.ProductGroup) :
    Extension.FetchResult Extension.ProcessData :=
  .ok { combinedImageUrl := some "https://cdn/combined.png" }

/-- Concrete fixture: an update oracle that always returns HTTP 404. -/
def c3Update (_ : Extension.ProductGroup) (_ : String) :
    Extension.FetchResult Extension.UpdateData :=
  .httpError 404

/-- Concrete fixture: a bundle product with three components of which the
second lacks a featured image. -/
def c5Product : FetchBundleImages.ProductNode :=
  { id := "gid://shopify/Product/100"
    title := "Trio Bundle"
    components :=
      [{ id := "gid://shopify/Product/101"
         title := "Component One"
         featuredMedia := some (some { url := "https://cdn/c1.png", altText := some "one" }) },
       { id := "gid://shopify/Product/102"
         title := "Component Two"
         featuredMedia := none },
       { id := "gid://shopify/Product/103"
         title := "Component Three"
         featuredMedia := some (some { url := "https://cdn/c3.png", altText := none }) }] }

/-- Concrete fixture: a bundle product none of whose two components
carries a featured image (one lacks featuredMedia, the other lacks
featuredMedia.image). -/
def c5Bare : FetchBundleImages.ProductNode :=
  { id := "gid://shopify/Product/200"
    title := "Bare Bundle"
    components :=
      [{ id := "gid://shopify/Product/201"
         title := "Bare One"
         featuredMedia := none },
       { id := "gid://shopify/Product/202"
         title := "Bare Two"
         featuredMedia := some none }] }

/-- Concrete fixture: a backend that finds one two-component product (one
component with an image) under a single id and reports every other id as
missing. -/
def c10Backend : String → FetchBundleImages.QueryResult := fun pid =>
  if pid = "gid://shopify/Product/1" then
    .found
      { id := "gid://shopify/Product/1"
        title := "Alpha"
        components :=
          [{ id := "gid://shopify/Product/11"
             title := "Alpha One"
             featuredMedia := some (some { url := "https://cdn/a1.png", altText := none }) },
           { id := "gid://shopify/Product/12"
             title := "Alpha Two"
             featuredMedia := none }] }
  else
    .notFound

/-- Concrete fixture: the success payload the route produces for the two
ids gid://shopify/Product/1 and gid://shopify/Product/2 under
c10Backend: one group with a single image, two components seen, one
product found of the two requested. -/
def c10Result : FetchBundleImages.FetchBundleImagesSuccess :=
  { products :=
      [{ productId := "gid://shopify/Product/1"
         productTitle := "Alpha"
         componentImages :=
           [{ productId := "gid://shopify/Product/1"
              productTitle := "Alpha"
              componentProductId := "gid://shopify/Product/11"
              componentProductTitle := "Alpha One"
              imageUrl := "https://cdn/a1.png"
              altText := none }]
         imageUrls := ["https://cdn/a1.png"] }]
    metadata :=
      { requestedProducts := 2
        productsFound := 1
        componentsFound := 2
        imagesFound := 1 } }

/-- Concrete fixture: an environment whose IMAGE_API_MODE carries the
unrecognized value s3 and no credentials. -/
def c6Env : Env :=
  { imageApiMode := some "s3"
    cloudinaryCloudName := none
    cloudinaryApiKey := none
    cloudinaryApiSecret := none
    imgbbApiKey := none }

/-- Specification of a grid layout for n images: enough cells, one
position per image, pairwise-distinct positions, the i-th position at
column i mod cols and row i / cols scaled by the cell size, and canvas
dimensions derived from the grid dimensions. -/
abbrev GridLayoutSpec (L : GridLayout) (n : Nat) : Prop :=
  (n : Int) ≤ L.rows * L.cols ∧
  L.positions.length = n ∧
  L.positions.Nodup ∧
  (∀ i : Nat, i < n →
    L.positions[i]? =
      some (((i : Int) % L.cols) * L.cellWidth, ((i : Int) / L.cols) * L.cellHeight)) ∧
  L.canvasWidth = L.cols * L.cellWidth ∧
  L.canvasHeight = L.rows * L.cellHeight

/-- Claim C1: for every imageCount in [1, 12], both observed
calculateGridLayout variants return a layout with rows * cols at least
imageCount, exactly imageCount positions, the positions pairwise-distinct
row-major grid cells with the i-th at ((i mod cols) * cellWidth,
(i / cols) * cellHeight), and canvas dimensions cols * cellWidth by
rows * cellHeight. -/
theorem c1_layout_in_range :
    (∀ n : Nat, n < 13 → 1 ≤ n →
      GridLayoutSpec (GridComposition.calculateGridLayout (n : Int)) n) ∧
    (∀ n : Nat, n < 13 → 1 ≤ n →
      GridLayoutSpec (ExampleService.calculateGridLayout (n : Int)) n) :=
  ⟨by decide, by decide⟩

/-- Witness for C1 at imageCount = 7. -/
theorem c1_layout_in_range_witness :
    GridLayoutSpec (GridComposition.calculateGridLayout ((7 : Nat) : Int)) 7 ∧
    GridLayoutSpec (ExampleService.calculateGridLayout ((7 : Nat) : Int)) 7 :=
  ⟨c1_layout_in_range.1 7 (by decide) (by decide),
   c1_layout_in_range.2 7 (by decide) (by decide)⟩

/-- Claim C9: the two observed calculateGridLayout variants disagree at
imageCount = 3 (the Cloudinary grid-composition variant returns cols = 2,
rows = 2; the example-service variant returns cols = 3, rows = 1), and for
every imageCount ≥ 1 other than 3 they compute identical rows and cols. -/
theorem c9_variants_agree_except_three :
    (GridComposition.calculateGridLayout 3).cols = 2 ∧
    (GridComposition.calculateGridLayout 3).rows = 2 ∧
    (ExampleService.calculateGridLayout 3).cols = 3 ∧
    (ExampleService.calculateGridLayout 3).rows = 1 ∧
    ∀ n : Int, 1 ≤ n → n ≠ 3 →
      (GridComposition.calculateGridLayout n).cols =
        (ExampleService.calculateGridLayout n).cols ∧
      (GridComposition.calculateGridLayout n).rows =
        (ExampleService.calculateGridLayout n).rows := by
  refine ⟨by decide, by decide, by decide, by decide, fun n h1 h3 => ?_⟩
  simp only [GridComposition.calculateGridLayout, ExampleService.calculateGridLayout]
  split_ifs <;> simp_all

/-- Witness for C9 at imageCount = 8. -/
theorem c9_variants_agree_except_three_witness :
    (GridComposition.calculateGridLayout 8).cols =
      (ExampleService.calculateGridLayout 8).cols ∧
    (GridComposition.calculateGridLayout 8).rows =
      (ExampleService.calculateGridLayout 8).rows :=
  c9_variants_agree_except_three.2.2.2.2 8 (by decide) (by decide)

/-- The position-building loop always emits exactly toNat imageCount
positions, whatever the grid dimensions. -/
theorem length_gridPositions (n cols cw ch : Int) :
    (gridPositions n cols cw ch).length = n.toNat := by
  simp [gridPositions]

/-- Counterexample to claim C8: at imageCount = 0 the Cloudinary-variant
calculateGridLayout does not fail with an InvalidInput error; it returns a
concrete 3-column 2-row layout with an empty position list, so no input
guard exists in the layout function. -/
theorem c8_counterexample_zero_returns_layout :
    GridComposition.calculateGridLayout 0 =
      { rows := 2
        cols := 3
        cellWidth := 1024
        cellHeight := 1024
        canvasWidth := 3072
        canvasHeight := 2048
        positions := [] } := by
  decide

/-- Claim C8 as amended: calculateGridLayout validates nothing and is total
on all integers: for every imageCount ≤ 0 it returns the degenerate 3 by 2
layout with an empty position list, and for every imageCount ≥ 1 it
returns a layout with exactly imageCount positions; rejection of the empty
case lives upstream instead, where processImages fails on an empty URL
list with the message No image URLs provided before the layout function is
ever reached. -/
theorem c8_amended_layout_total :
    (∀ n : Int, n ≤ 0 →
      GridComposition.calculateGridLayout n =
        { rows := 2
          cols := 3
          cellWidth := 1024
          cellHeight := 1024
          canvasWidth := 3072
          canvasHeight := 2048
          positions := [] }) ∧
    (∀ n : Int, 1 ≤ n →
      ((GridComposition.calculateGridLayout n).positions.length : Int) = n) ∧
    (∀ (isValidUrl : String → Bool) (env : Env),
      GridComposition.processImages isValidUrl env [] =
        .error "No image URLs provided") := by
  refine ⟨fun n h => ?_, fun n h => ?_, fun v e => rfl⟩
  · have h0 : n.toNat = 0 := Int.toNat_of_nonpos h
    have h1 : ¬(n = 1) := by omega
    have h2 : ¬(n = 2) := by omega
    have h3 : ¬(n = 3) := by omega
    have h4 : ¬(n = 4) := by omega
    have h6 : n ≤ 6 := by omega
    simp [GridComposition.calculateGridLayout, gridPositions, h0, h1, h2, h3, h4, h6]
  · have hp : (GridComposition.calculateGridLayout n).positions
        = gridPositions n (GridComposition.calculateGridLayout n).cols 1024 1024 := rfl
    rw [hp, length_gridPositions]
    omega

/-- Witness for the amended C8 at imageCount = -2, 5 and the empty URL
list. -/
theorem c8_amended_layout_total_witness :
    GridComposition.calculateGridLayout (-2) =
      { rows := 2
        cols := 3
        cellWidth := 1024
        cellHeight := 1024
        canvasWidth := 3072
        canvasHeight := 2048
        positions := [] } ∧
    ((GridComposition.calculateGridLayout 5).positions.length : Int) = 5 ∧
    GridComposition.processImages (fun _ => true)
        { imageApiMode := none
          cloudinaryCloudName := none
          cloudinaryApiKey := none
          cloudinaryApiSecret := none
          imgbbApiKey := none } [] =
      .error "No image URLs provided" :=
  ⟨c8_amended_layout_total.1 (-2) (by decide),
   c8_amended_layout_total.2.1 5 (by decide),
   c8_amended_layout_total.2.2 (fun _ => true)
     { imageApiMode := none
       cloudinaryCloudName := none
       cloudinaryApiKey := none
       cloudinaryApiSecret := none
       imgbbApiKey := none }⟩

/-- Counterexample to claim C2: on the empty group sequence the
orchestrator does not produce one outcome per group (which would be zero
outcomes); it records a single sentinel entry whose only populated field
is the error message. -/
theorem c2_counterexample_empty_batch :
    Extension.generateAndUpdateBundles (fun _ => .httpError 500)
        (fun _ _ => .httpError 500) [] =
      [{ productId := none
         productTitle := none
         success := none
         combinedImageUrl := none
         mediaCount := none
         error := some "No products available to process" }] := rfl

/-- Claim C2 as amended: for every non-empty sequence of product groups
the orchestrator terminates with exactly one outcome per group, in input
order: the i-th outcome is the result of processing the i-th group alone,
so a failure inside one group can never abort or alter the processing of
the others; the empty sequence instead yields the single sentinel error
entry exhibited by the counterexample. -/
theorem c2_amended_one_outcome_per_group
    (compositeCall : Extension.ProductGroup → Extension.FetchResult Extension.ProcessData)
    (updateCall : Extension.ProductGroup → String → Extension.FetchResult Extension.UpdateData)
    (products : List Extension.ProductGroup) (h : products ≠ []) :
    (Extension.generateAndUpdateBundles compositeCall updateCall products).length
        = products.length ∧
    ∀ i : Nat, (hi : i < products.length) →
      (Extension.generateAndUpdateBundles compositeCall updateCall products)[i]? =
        some (Extension.processProduct compositeCall updateCall products[i]) := by
  cases products with
  | nil => exact absurd rfl h
  | cons p ps =>
    refine ⟨by simp [Extension.generateAndUpdateBundles], fun i hi => ?_⟩
    have h1 : (List.map (Extension.processProduct compositeCall updateCall) (p :: ps))[i]? =
        some (Extension.processProduct compositeCall updateCall (p :: ps)[i]) := by
      rw [List.getElem?_map, List.getElem?_eq_getElem hi]
      rfl
    simpa [Extension.generateAndUpdateBundles] using h1

/-- Witness for the amended C2: two groups where the first group's
composite and update succeed and the second group's composite fetch
returns HTTP 500. -/
theorem c2_amended_one_outcome_per_group_witness :
    (Extension.generateAndUpdateBundles c2Composite c2Update [c2GroupA, c2GroupB]).length
        = [c2GroupA, c2GroupB].length ∧
    (Extension.generateAndUpdateBundles c2Composite c2Update [c2GroupA, c2GroupB])[1]? =
      some (Extension.processProduct c2Composite c2Update [c2GroupA, c2GroupB][1]) :=
  ⟨(c2_amended_one_outcome_per_group c2Composite c2Update [c2GroupA, c2GroupB]
      (by decide)).1,
   (c2_amended_one_outcome_per_group c2Composite c2Update [c2GroupA, c2GroupB]
      (by decide)).2 1 (by decide)⟩

/-- Counterexample to claim C3: when the composite build succeeds but the
update fetch throws (for example a network failure), the per-product
catch records the failure without the already-computed combinedImageUrl,
so the URL is dropped from that group's outcome rather than retained. -/
theorem c3_counterexample_thrown_update_drops_url :
    Extension.generateAndUpdateBundles
        (fun _ => .ok { combinedImageUrl := some "https://cdn/combined.png" })
        (fun _ _ => .thrown "Network request failed")
        [{ productId := "gid://shopify/Product/7"
           productTitle := "Bundle Seven"
           imageUrls := ["https://img/1.png", "https://img/2.png"] }] =
      [{ productId := some "gid://shopify/Product/7"
         productTitle := some "Bundle Seven"
         success := some false
         combinedImageUrl := none
         mediaCount := none
         error := some "Network request failed" }] := by
  decide

/-- Claim C3 as amended: when a group's composite build succeeds and the
product update fails with a non-ok HTTP status or with a response body
whose success flag is false, the recorded outcome has success false, an
error message, and retains the already-computed combinedImageUrl; only
when the update fetch throws does the per-product catch record the error
without the URL. -/
theorem c3_amended_update_failure_retains_url
    (compositeCall : Extension.ProductGroup → Extension.FetchResult Extension.ProcessData)
    (updateCall : Extension.ProductGroup → String → Extension.FetchResult Extension.UpdateData)
    (g : Extension.ProductGroup) (pd : Extension.ProcessData) (url : String)
    (hc : compositeCall g = .ok pd) (hurl : pd.combinedImageUrl = some url)
    (hne : url ≠ "") :
    (∀ status, updateCall g url = .httpError status →
      Extension.processProduct compositeCall updateCall g =
        { productId := some g.productId
          productTitle := some g.productTitle
          success := some false
          combinedImageUrl := some url
          mediaCount := none
          error := some ("Failed to update product: " ++ toString status) }) ∧
    (∀ ud, updateCall g url = .ok ud → ud.success = false →
      Extension.processProduct compositeCall updateCall g =
        { productId := some g.productId
          productTitle := some g.productTitle
          success := some false
          combinedImageUrl := some url
          mediaCount := none
          error := some (Extension.jsOrString ud.error "Update failed") }) ∧
    (∀ msg, updateCall g url = .thrown msg →
      Extension.processProduct compositeCall updateCall g =
        Extension.failureOutcome g msg) := by
  refine ⟨fun status hu => ?_, fun ud hu hs => ?_, fun msg hu => ?_⟩
  · simp [Extension.processProduct, hc, hurl, hne, hu]
  · simp [Extension.processProduct, hc, hurl, hne, hu, hs]
  · simp [Extension.processProduct, hc, hurl, hne, hu]

/-- Witness for the amended C3: the update call returns HTTP 404 after a
successful composite and the outcome keeps the composite URL. -/
theorem c3_amended_update_failure_retains_url_witness :
    Extension.processProduct c3Composite c3Update c3Group =
      { productId := some "gid://shopify/Product/7"
        productTitle := some "Bundle Seven"
        success := some false
        combinedImageUrl := some "https://cdn/combined.png"
        mediaCount := none
        error := some ("Failed to update product: " ++ toString 404) } :=
  (c3_amended_update_failure_retains_url c3Composite c3Update c3Group
      { combinedImageUrl := some "https://cdn/combined.png" } "https://cdn/combined.png"
      rfl rfl (by decide)).1 404 rfl

/-- Claim C4: a backend lookup that reports a GraphQL query error or a
missing product never fails the request: such an id contributes nothing
to the loop state (no group and no counter increment), and for a single
such valid id the action succeeds with an empty group list and
productsFound = 0. -/
theorem c4_lookup_failure_swallowed
    (backend : String → FetchBundleImages.QueryResult) :
    (∀ pid rest,
      (backend pid = .notFound ∨ ∃ msgs, backend pid = .errors msgs) →
      FetchBundleImages.resolveLoop backend (pid :: rest) =
        FetchBundleImages.resolveLoop backend rest) ∧
    (∀ pid, FetchBundleImages.validGid pid = true →
      (backend pid = .notFound ∨ ∃ msgs, backend pid = .errors msgs) →
      FetchBundleImages.action backend [pid] =
        .ok { products := []
              metadata :=
                { requestedProducts := 1
                  productsFound := 0
                  componentsFound := 0
                  imagesFound := 0 } }) := by
  constructor
  · rintro pid rest (h | ⟨msgs, h⟩) <;> simp [FetchBundleImages.resolveLoop, h]
  · rintro pid hv (h | ⟨msgs, h⟩) <;>
      simp [FetchBundleImages.action, FetchBundleImages.resolveLoop, hv, h]

/-- Witness for C4: a single valid id whose lookup reports not found. -/
theorem c4_lookup_failure_swallowed_witness :
    FetchBundleImages.action (fun _ => .notFound) ["gid://shopify/Product/42"] =
      .ok { products := []
            metadata :=
              { requestedProducts := 1
                productsFound := 0
                componentsFound := 0
                imagesFound := 0 } } :=
  (c4_lookup_failure_swallowed (fun _ => .notFound)).2 "gid://shopify/Product/42"
    (by decide) (Or.inl rfl)

/-- Claim C5: exactly the components carrying a featured image yield a
ComponentImage (the rest are dropped silently, never an error), and a
found product none of whose components carries one is excluded from the
output groups entirely while still counting into productsFound and
componentsFound. -/
theorem c5_imageless_components_dropped :
    (∀ p : FetchBundleImages.ProductNode,
      (FetchBundleImages.collectImages p).length =
        p.components.countP (fun c => FetchBundleImages.hasFeaturedImage c)) ∧
    (∀ (backend : String → FetchBundleImages.QueryResult) (pid : String)
        (p : FetchBundleImages.ProductNode),
      FetchBundleImages.validGid pid = true →
      backend pid = .found p →
      FetchBundleImages.collectImages p = [] →
      FetchBundleImages.action backend [pid] =
        .ok { products := []
              metadata :=
                { requestedProducts := 1
                  productsFound := 1
                  componentsFound := p.components.length
                  imagesFound := 0 } }) := by
  constructor
  · intro p
    unfold FetchBundleImages.collectImages
    induction p.components with
    | nil => rfl
    | cons c cs ih =>
      cases hm : c.featuredMedia with
      | none =>
        simp [List.filterMap_cons, List.countP_cons, FetchBundleImages.hasFeaturedImage,
          hm, ih]
      | some o =>
        cases o <;>
          simp [List.filterMap_cons, List.countP_cons, FetchBundleImages.hasFeaturedImage,
            hm, ih]
  · intro backend pid p hv hb hcoll
    simp [FetchBundleImages.action, FetchBundleImages.resolveLoop, hv, hb, hcoll]

/-- Witness for C5: the three-component fixture yields exactly two
ComponentImages, and a product with two imageless components is excluded
from the groups while counting as found with two components. -/
theorem c5_imageless_components_dropped_witness :
    (FetchBundleImages.collectImages c5Product).length =
      c5Product.components.countP (fun c => FetchBundleImages.hasFeaturedImage c) ∧
    (FetchBundleImages.collectImages c5Product).length = 2 ∧
    FetchBundleImages.action (fun _ => .found c5Bare) ["gid://shopify/Product/200"] =
      .ok { products := []
            metadata :=
              { requestedProducts := 1
                productsFound := 1
                componentsFound := 2
                imagesFound := 0 } } :=
  ⟨c5_imageless_components_dropped.1 c5Product,
   by decide,
   c5_imageless_components_dropped.2 (fun _ => .found c5Bare)
     "gid://shopify/Product/200" c5Bare (by decide) rfl (by decide)⟩

/-- Claim C7: an empty id list or any id failing the GID pattern rejects
the whole request with the corresponding 400 message, and the result does
not depend on the backend at all — no external query can influence it and
no partial group output is produced. -/
theorem c7_validation_rejects_request
    (backend backend2 : String → FetchBundleImages.QueryResult)
    (productIds : List String)
    (h : productIds = [] ∨ ∃ pid ∈ productIds, FetchBundleImages.validGid pid = false) :
    (∃ msg, FetchBundleImages.action backend productIds = .error msg) ∧
    FetchBundleImages.action backend productIds =
      FetchBundleImages.action backend2 productIds := by
  rcases h with rfl | ⟨pid, hmem, hv⟩
  · exact ⟨⟨"productIds array is empty", rfl⟩, rfl⟩
  · cases productIds with
    | nil => cases hmem
    | cons q qs =>
      have hf : ((q :: qs).find? fun x => !FetchBundleImages.validGid x).isSome := by
        rw [List.find?_isSome]
        exact ⟨pid, hmem, by simp [hv]⟩
      obtain ⟨bad, hbad⟩ := Option.isSome_iff_exists.mp hf
      constructor
      · exact ⟨"Invalid product ID format: " ++ bad,
          by simp [FetchBundleImages.action, hbad]⟩
      · simp [FetchBundleImages.action, hbad]

/-- Witness for C7: a single malformed id, rejected identically under two
different backends. -/
theorem c7_validation_rejects_request_witness :
    (∃ msg, FetchBundleImages.action (fun _ => .notFound) ["oops"] = .error msg) ∧
    FetchBundleImages.action (fun _ => .notFound) ["oops"] =
      FetchBundleImages.action (fun _ => .found c5Bare) ["oops"] :=
  c7_validation_rejects_request (fun _ => .notFound) (fun _ => .found c5Bare)
    ["oops"] (Or.inr ⟨"oops", by decide, by decide⟩)

/-- Every component image kept by the loop comes from filtering, so a
product contributes at most as many images as it has components. -/
theorem length_collectImages_le (p : FetchBundleImages.ProductNode) :
    (FetchBundleImages.collectImages p).length ≤ p.components.length :=
  List.length_filterMap_le _ _

/-- Loop invariant of the route's per-product loop: the images counter is
the total length of the groups' URL lists, every group is non-empty with
imageUrls derived in order from its componentImages, the group count never
exceeds productsFound, and imagesFound never exceeds componentsFound. -/
theorem resolveLoop_invariants (backend : String → FetchBundleImages.QueryResult)
    (ids : List String) :
    (FetchBundleImages.resolveLoop backend ids).imagesFound =
      ((FetchBundleImages.resolveLoop backend ids).products.map
        (fun g => g.imageUrls.length)).sum ∧
    (∀ g ∈ (FetchBundleImages.resolveLoop backend ids).products,
      g.componentImages ≠ [] ∧
      g.imageUrls = g.componentImages.map (fun ci => ci.imageUrl)) ∧
    (FetchBundleImages.resolveLoop backend ids).products.length ≤
      (FetchBundleImages.resolveLoop backend ids).productsFound ∧
    (FetchBundleImages.resolveLoop backend ids).imagesFound ≤
      (FetchBundleImages.resolveLoop backend ids).componentsFound := by
  induction ids with
  | nil => simp [FetchBundleImages.resolveLoop]
  | cons pid rest ih =>
    obtain ⟨ih1, ih2, ih3, ih4⟩ := ih
    cases hb : backend pid with
    | errors msgs => simpa [FetchBundleImages.resolveLoop, hb] using ⟨ih1, ih2, ih3, ih4⟩
    | notFound => simpa [FetchBundleImages.resolveLoop, hb] using ⟨ih1, ih2, ih3, ih4⟩
    | found p =>
      have hle := length_collectImages_le p
      by_cases hlen : (FetchBundleImages.collectImages p).length > 0
      · refine ⟨?_, ?_, ?_, ?_⟩ <;>
          simp only [FetchBundleImages.resolveLoop, hb, if_pos hlen]
        · simp only [List.map_cons, List.sum_cons, List.length_map]
          rw [ih1]
          omega
        · intro g hg
          rcases List.mem_cons.mp hg with rfl | hg2
          · refine ⟨?_, rfl⟩
            intro hnil
            have h0 : FetchBundleImages.collectImages p = [] := hnil
            rw [h0] at hlen
            exact absurd hlen (by simp)
          · exact ih2 g hg2
        · simpa using ih3
        · simp only [List.length_map]
          omega
      · refine ⟨?_, ?_, ?_, ?_⟩ <;>
          simp only [FetchBundleImages.resolveLoop, hb, if_neg hlen]
        · exact ih1
        · exact ih2
        · omega
        · omega

/-- Claim C10: whenever the action succeeds, the returned stats are
consistent with the returned groups: requestedProducts is the input
length, imagesFound is the total length of the groups' URL lists, every
group has non-empty componentImages whose imageUrl fields equal the
group's imageUrls element by element, the group count is at most
productsFound, and imagesFound is at most componentsFound. -/
theorem c10_stats_consistent (backend : String → FetchBundleImages.QueryResult)
    (productIds : List String) (result : FetchBundleImages.FetchBundleImagesSuccess)
    (h : FetchBundleImages.action backend productIds = .ok result) :
    result.metadata.requestedProducts = productIds.length ∧
    result.metadata.imagesFound =
      (result.products.map (fun g => g.imageUrls.length)).sum ∧
    (∀ g ∈ result.products,
      g.componentImages ≠ [] ∧
      g.imageUrls = g.componentImages.map (fun ci => ci.imageUrl)) ∧
    result.products.length ≤ result.metadata.productsFound ∧
    result.metadata.imagesFound ≤ result.metadata.componentsFound := by
  have inv := resolveLoop_invariants backend productIds
  unfold FetchBundleImages.action at h
  split at h
  · exact Except.noConfusion h
  · split at h
    · exact Except.noConfusion h
    · simp only [Except.ok.injEq] at h
      subst h
      exact ⟨rfl, inv.1, inv.2.1, inv.2.2.1, inv.2.2.2⟩

/-- Witness for C10: two requested ids of which only the first is found,
with one of its two components contributing an image. -/
theorem c10_stats_consistent_witness :
    c10Result.metadata.requestedProducts =
      (["gid://shopify/Product/1", "gid://shopify/Product/2"] : List String).length ∧
    c10Result.metadata.imagesFound =
      (c10Result.products.map (fun g => g.imageUrls.length)).sum ∧
    c10Result.products.length ≤ c10Result.metadata.productsFound ∧
    c10Result.metadata.imagesFound ≤ c10Result.metadata.componentsFound :=
  ⟨(c10_stats_consistent c10Backend
      ["gid://shopify/Product/1", "gid://shopify/Product/2"] c10Result rfl).1,
   (c10_stats_consistent c10Backend
      ["gid://shopify/Product/1", "gid://shopify/Product/2"] c10Result rfl).2.1,
   (c10_stats_consistent c10Backend
      ["gid://shopify/Product/1", "gid://shopify/Product/2"] c10Result rfl).2.2.2.1,
   (c10_stats_consistent c10Backend
      ["gid://shopify/Product/1", "gid://shopify/Product/2"] c10Result rfl).2.2.2.2⟩

/-- Claim C6: the composite builder's pre-external phase fails with the
validation message on an empty URL list or on a malformed URL (in both
service variants, before any external step is represented), fails with
the missing-credentials configuration message when Cloudinary credentials
are absent in cloudinary mode, and fails with the unknown-mode
configuration message when IMAGE_API_MODE carries an unrecognized
non-empty value. -/
theorem c6_builder_validation_and_configuration
    (isValidUrl : String → Bool) (env : Env) (now : Nat) (imageUrls : List String) :
    (imageUrls = [] →
      ExampleService.processImages isValidUrl env now imageUrls =
        .error "No image URLs provided" ∧
      GridComposition.processImages isValidUrl env imageUrls =
        .error "No image URLs provided") ∧
    ((∃ u ∈ imageUrls, isValidUrl u = false) →
      ∃ bad ∈ imageUrls, isValidUrl bad = false ∧
        ExampleService.processImages isValidUrl env now imageUrls =
          .error ("Invalid URL format: " ++ bad) ∧
        GridComposition.processImages isValidUrl env imageUrls =
          .error ("Invalid URL format: " ++ bad)) ∧
    (env.imageApiMode = some "cloudinary" →
      (∀ u ∈ imageUrls, isValidUrl u = true) →
      imageUrls ≠ [] →
      (jsFalsy env.cloudinaryCloudName || jsFalsy env.cloudinaryApiKey ||
        jsFalsy env.cloudinaryApiSecret) = true →
      ExampleService.processImages isValidUrl env now imageUrls =
        .error "Cloudinary configuration missing. Required: CLOUDINARY_CLOUD_NAME, CLOUDINARY_API_KEY, CLOUDINARY_API_SECRET") ∧
    (∀ mode, env.imageApiMode = some mode →
      mode ∉ (["", "demo", "cloudinary", "imgbb"] : List String) →
      (∀ u ∈ imageUrls, isValidUrl u = true) →
      imageUrls ≠ [] →
      ExampleService.processImages isValidUrl env now imageUrls =
        .error ("Unknown IMAGE_API_MODE: " ++ mode ++
          ". Valid options: demo, cloudinary, imgbb")) := by
  refine ⟨fun he => ?_, fun hex => ?_, fun hm hall hne hcfg => ?_,
    fun mode hm hnot hall hne => ?_⟩
  · subst he
    exact ⟨rfl, rfl⟩
  · obtain ⟨u, hu, hvu⟩ := hex
    cases imageUrls with
    | nil => cases hu
    | cons q qs =>
      have hf : ((q :: qs).find? fun x => !isValidUrl x).isSome := by
        rw [List.find?_isSome]
        exact ⟨u, hu, by simp [hvu]⟩
      obtain ⟨bad, hbad⟩ := Option.isSome_iff_exists.mp hf
      have hmem : bad ∈ q :: qs := List.mem_of_find?_eq_some hbad
      have hvb : isValidUrl bad = false := by
        have := List.find?_some hbad
        simpa using this
      exact ⟨bad, hmem, hvb,
        by simp [ExampleService.processImages, hbad],
        by simp [GridComposition.processImages, hbad]⟩
  · cases imageUrls with
    | nil => exact absurd rfl hne
    | cons q qs =>
      have hnone : ((q :: qs).find? fun x => !isValidUrl x) = none := by
        rw [List.find?_eq_none]
        intro x hx
        simp [hall x hx]
      simp [ExampleService.processImages, hnone, hm, hcfg]
  · cases imageUrls with
    | nil => exact absurd rfl hne
    | cons q qs =>
      have hnone : ((q :: qs).find? fun x => !isValidUrl x) = none := by
        rw [List.find?_eq_none]
        intro x hx
        simp [hall x hx]
      simp only [List.mem_cons, List.not_mem_nil, or_false, not_or] at hnot
      obtain ⟨h1, h2, h3, h4⟩ := hnot
      simp [ExampleService.processImages, hnone, hm, h1, h2, h3, h4]

/-- Witness for C6: an unrecognized mode value s3 with one well-formed
URL. -/
theorem c6_builder_validation_and_configuration_witness :
    ExampleService.processImages (fun _ => true) c6Env 0 ["https://a/1.png"] =
      .error ("Unknown IMAGE_API_MODE: " ++ "s3" ++
        ". Valid options: demo, cloudinary, imgbb") :=
  (c6_builder_validation_and_configuration (fun _ => true) c6Env 0
      ["https://a/1.png"]).2.2.2 "s3" rfl (by decide) (by decide) (by decide)

end ImagesCreator
